import Mathlib

/-!
A shallow embedding of the `local-ai` repository: the concurrent fetcher
(`src/crypto_models/download.py`) and the service supervisor
(`src/local_ai/core.py`).  Python functions are translated into pure Lean
functions; the outcomes of external effects (HTTP responses, filesystem
operations, child-process spawns, health probes) are passed in as explicit
parameters, and the effects the code performs (sleeps, temp-file deletions,
process spawns, signals) are returned as explicit data.
-/

namespace CryptoModels

/-! ## Constants from src/crypto_models/download.py -/

def SLEEP_TIME : Nat := 60

def MAX_ATTEMPTS : Nat := 2

def PROGRESS_BATCH_SIZE : Nat := 10 * 1024 * 1024

def MAX_CONCURRENT_DOWNLOADS : Nat := 16

/-! ## download_single_file_async

Each loop iteration of `download_single_file_async` is driven by what the
gateway and the filesystem did on that attempt: a 200 response whose body
hashed correctly or not, a non-200 status, or one of the three exception
arms (`asyncio.TimeoutError`, `aiohttp.ClientError`, other).  The local
variable `wait_time` is only assigned in the non-200 branch and in the
exception arms; we model it as `Option Nat`, `none` meaning unassigned,
exactly as Python scoping behaves (an unassigned read raises
`UnboundLocalError`). -/

inductive AttemptOutcome where
  | httpOk (hashMatches : Bool)
  | httpStatus (code : Nat)
  | timeoutErr
  | clientErr
  | otherErr
deriving DecidableEq, Repr

/-- `min(SLEEP_TIME * (2 ** attempts), 300)` from lines 165/171/175/179. -/
def expBackoff (attempts : Nat) : Nat := min (SLEEP_TIME * 2 ^ attempts) 300

/-- `response.status in (404, 403, 401)` from line 162. -/
def flatRetryStatus (c : Nat) : Bool := c = 404 || c = 403 || c = 401

/-- The value assigned to `wait_time` by one loop iteration, `none` when the
iteration assigns nothing (the 200 branch never assigns `wait_time`,
whether the hash matched or not). -/
def attemptWait : AttemptOutcome → Nat → Option Nat
  | .httpOk _, _ => none
  | .httpStatus c, a => some (if flatRetryStatus c then SLEEP_TIME else expBackoff a)
  | .timeoutErr, a => some (expBackoff a)
  | .clientErr, a => some (expBackoff a)
  | .otherErr, a => some (expBackoff a)

/-- How many `temp_path.unlink` calls the iteration performs: one on hash
mismatch (line 158) and one in each exception arm (lines 170/174/178); the
non-200 branch touches no temp file, and success renames rather than
deletes. -/
def tempDeletedBy : AttemptOutcome → Nat
  | .httpOk true => 0
  | .httpOk false => 1
  | .httpStatus _ => 0
  | .timeoutErr => 1
  | .clientErr => 1
  | .otherErr => 1

inductive DownloadResult where
  | success
  | failure (msg : String)
  | raisedUnboundLocal
deriving DecidableEq, Repr

/-- The observable run of `download_single_file_async`: its return value (or
escaped exception), the backoff sleeps it performed in order, and how many
temp-file deletions it issued. -/
structure FetchRun where
  result : DownloadResult
  sleeps : List Nat
  tempDeletions : Nat
deriving DecidableEq, Repr

/-- The retry loop of `download_single_file_async` (lines 92-189).  One
`AttemptOutcome` is consumed per iteration of `while attempts <
max_attempts`.  After the iteration body, `attempts += 1`; if attempts
remain, the code prints a message interpolating `wait_time` and sleeps it —
when `wait_time` was never assigned in this call the print raises
`UnboundLocalError`; on the final attempt it unlinks the temp file once
more and returns the failure tuple. -/
def downloadGo (maxAttempts : Nat) :
    List AttemptOutcome → Nat → Option Nat → List Nat → Nat → FetchRun
  | [], _, _, sleeps, td => ⟨.failure "no further modelled outcomes", sleeps.reverse, td⟩
  | o :: rest, attempts, waitTime, sleeps, td =>
    if attempts < maxAttempts then
      match o with
      | .httpOk true => ⟨.success, sleeps.reverse, td⟩
      | _ =>
        let w := match attemptWait o attempts with
                 | some v => some v
                 | none => waitTime
        let td' := td + tempDeletedBy o
        if attempts + 1 < maxAttempts then
          match w with
          | none => ⟨.raisedUnboundLocal, sleeps.reverse, td'⟩
          | some v => downloadGo maxAttempts rest (attempts + 1) (some v) (v :: sleeps) td'
        else
          ⟨.failure "exhausted all attempts", sleeps.reverse, td' + 1⟩
    else
      ⟨.failure "loop not entered", sleeps.reverse, td⟩

/-- `download_single_file_async` proper.  `existingFile` is `some b` when the
final path already exists with (`b` = true) or without a matching hash; a
matching pre-existing file short-circuits with success before the loop. -/
def downloadSingleFile (existingFile : Option Bool)
    (outcomes : List AttemptOutcome) (maxAttempts : Nat) : FetchRun :=
  match existingFile with
  | some true => ⟨.success, [], 0⟩
  | _ => downloadGo maxAttempts outcomes 0 none [] 0

/-! ## ProgressTracker (lines 191-298)

`update_progress_batched` adds to `pending_bytes` under the pending lock and
drains into `total_bytes_downloaded` once the batch reaches
`PROGRESS_BATCH_SIZE`; `_periodic_progress_update` drains any nonzero
remainder each second.  The asyncio scheduler interleaves these operations
atomically (each runs to completion under its locks), so a run is a
sequence of atomic operations on the tracker state. -/

structure TrackerState where
  totalBytesDownloaded : Nat
  pendingBytes : Nat
deriving DecidableEq, Repr

/-- `update_progress_batched` (lines 216-229); `update_progress` is defined
in the source as a direct wrapper around it. -/
def updateProgressBatched (st : TrackerState) (b : Nat) : TrackerState :=
  let pending := st.pendingBytes + b
  if PROGRESS_BATCH_SIZE ≤ pending then
    ⟨st.totalBytesDownloaded + pending, 0⟩
  else
    ⟨st.totalBytesDownloaded, pending⟩

/-- The drain step of `_periodic_progress_update` (lines 243-249). -/
def periodicDrain (st : TrackerState) : TrackerState :=
  if 0 < st.pendingBytes then
    ⟨st.totalBytesDownloaded + st.pendingBytes, 0⟩
  else
    st

inductive TrackerOp where
  | update (b : Nat)
  | drain
deriving DecidableEq, Repr

def applyTrackerOp (st : TrackerState) : TrackerOp → TrackerState
  | .update b => updateProgressBatched st b
  | .drain => periodicDrain st

def runTrackerOps (st : TrackerState) (ops : List TrackerOp) : TrackerState :=
  ops.foldl applyTrackerOp st

/-- Sum of the byte-count arguments of the `update` operations in a run. -/
def trackerOpsSum : List TrackerOp → Nat
  | [] => 0
  | .update b :: rest => b + trackerOpsSum rest
  | .drain :: rest => trackerOpsSum rest

/-! ## download_files_from_lighthouse_async (lines 300-382)

Per-blob results come in as a list of booleans (success / failure after the
per-blob retries).  Successful paths are modelled by their index in the
manifest.  The source collects `successful_downloads`, and at the end
returns it when `len == num_of_files`, otherwise returns
`successful_downloads if successful_downloads else []` — i.e. the partial
list when it is nonempty. -/

def downloadFilesFromLighthouse (results : List Bool) (numFiles : Nat) : List Nat :=
  let successes := (List.range results.length).filter (fun i => results.getD i false)
  if successes.length = numFiles then successes
  else if successes.isEmpty then [] else successes

/-- One attempt of the orchestration loop in
`download_model_from_filecoin_async` (lines 443-456): after the fan-out the
code checks `if not paths:`; an empty list retries/fails, a nonempty list
proceeds to extraction, move and cleanup (post-processing). -/
def attemptRunsPostProcessing (results : List Bool) (numFiles : Nat) : Bool :=
  !(downloadFilesFromLighthouse results numFiles).isEmpty

end CryptoModels

namespace LocalAI

/-! Embedding of `src/local_ai/core.py` (`LocalAIManager`). -/

/-! ## The supervision record file (`running_service.pkl`)

The file is absent, present but failing `pickle.load`, or present and
deserializing to a record whose `hash` field we keep. -/

inductive RecordFile where
  | absent
  | corrupt
  | readable (h : String)
deriving DecidableEq, Repr

/-- `get_running_model` (lines 396-415): `None` without a file, `None` when
loading raises (caught at line 413), the `hash` field otherwise. -/
def getRunningModel : RecordFile → Option String
  | .absent => none
  | .corrupt => none
  | .readable h => some h

/-! ## _start_lock (lines 48-112)

The environment decides how the acquire phase goes: `os.open` raising
`OSError`; the flock acquired (then the body runs and either returns or
raises); the flock blocked with a live PID in the lock file; blocked with a
stale PID (dead or non-numeric); or blocked and the read of the lock file
itself raising.  Whatever happened, the `finally` block closes any open
descriptor and removes the lock file when it exists. -/

inductive LockEnv where
  | openFails
  | acquired (bodyRaises : Bool)
  | blockedLivePid
  | blockedStalePid
  | blockedReadFails
deriving DecidableEq, Repr

inductive LockResult where
  | bodyReturned
  | bodyRaised
  | errAlreadyStarting
  | errStartError
deriving DecidableEq, Repr

structure LockRun where
  result : LockResult
  fdClosed : Bool
  lockFileAfter : Bool
deriving DecidableEq, Repr

/-- The `finally` block of `_start_lock` (lines 99-112): close the
descriptor when one is open, then remove the lock file when it exists.
Returns (every descriptor closed, lock file exists afterwards). -/
def startLockFinally (fdOpen fileExists : Bool) : Bool × Bool :=
  (if fdOpen then true else true, if fileExists then false else false)

/-- A run of the `_start_lock` context manager.  In every branch the lock
file is created by `os.open(..., O_CREAT)` except when that call itself
fails (in which case it may or may not exist; we take the failing-create
case, and the `finally` removes it in either case anyway).  In the
stale-PID branch the body already closed the descriptor and removed the
file before raising (lines 81-86). -/
def runStartLock (env : LockEnv) : LockRun :=
  match env with
  | .openFails =>
    let fin := startLockFinally false false
    ⟨.errStartError, fin.1, fin.2⟩
  | .acquired bodyRaises =>
    let fin := startLockFinally true true
    ⟨if bodyRaises then .bodyRaised else .bodyReturned, fin.1, fin.2⟩
  | .blockedLivePid =>
    let fin := startLockFinally true true
    ⟨.errAlreadyStarting, fin.1, fin.2⟩
  | .blockedStalePid =>
    let fin := startLockFinally false false
    ⟨.errAlreadyStarting, fin.1, fin.2⟩
  | .blockedReadFails =>
    let fin := startLockFinally true true
    ⟨.errAlreadyStarting, fin.1, fin.2⟩

/-! ## stop (lines 417-677)

The outcomes of the external steps are parameters: whether the termination
escalation reported each PID stopped, whether both ports were verified
free, and whether removing the pickle file succeeded.  The observable run
records the boolean return, the record file afterwards, and how many
processes were signalled (the two `terminate_process_group` calls at lines
615-616 — zero when loading the record raised first). -/

structure StopRun where
  result : Bool
  recordAfter : RecordFile
  terminationsAttempted : Nat
deriving DecidableEq, Repr

/-- `stop`: no record file returns `False` (line 426); a record that fails
to load hits the outer `except` (lines 675-677) and returns `False` having
touched nothing; otherwise both PIDs go through the escalation, ports are
probed (affecting only logging), the pickle file is removed, and the result
is `ai_stopped and api_stopped and pickle_removed` (line 663). -/
def stop (record : RecordFile)
    (aiStopped apiStopped portsFreed removeOk : Bool) : StopRun :=
  match record with
  | .absent => ⟨false, .absent, 0⟩
  | .corrupt => ⟨false, .corrupt, 0⟩
  | .readable h =>
    let _ := portsFreed
    ⟨aiStopped && apiStopped && removeOk,
     if removeOk then .absent else .readable h, 2⟩

/-- Whether `pickle.load` on the record file would have succeeded. -/
def recordLoadable : RecordFile → Bool
  | .absent => false
  | .corrupt => false
  | .readable _ => true

/-! ## _build_ai_command (lines 695-721) -/

/-- `_build_ai_command`.  `bestPractice` stands for the key/value mapping
parsed from the best-practice JSON file when a path was passed, `none`
otherwise. -/
def buildAiCommand (llamaServerPath modelPath : String) (port : Nat)
    (host : String) (contextLength : Nat) (templatePath : Option String)
    (bestPractice : Option (List (String × String))) : List String :=
  [llamaServerPath,
   "--model", modelPath,
   "--port", toString port,
   "--host", host,
   "-c", toString contextLength,
   "-fa",
   "--pooling", "mean",
   "--no-webui",
   "-ngl", "9999",
   "--no-mmap",
   "--mlock",
   "--jinja",
   "--reasoning-format", "none"]
  ++ (match templatePath with
      | some t => ["--chat-template-file", t]
      | none => [])
  ++ (match bestPractice with
      | some bp => bp.flatMap (fun kv => ["--" ++ kv.1, kv.2])
      | none => [])

/-- Whether `pat` occurs as a leading block of `s` (character lists). -/
def charsBegin : List Char → List Char → Bool
  | [], _ => true
  | _ :: _, [] => false
  | p :: ps, c :: cs => p = c && charsBegin ps cs

/-- Substring occurrence on character lists. -/
def charsContain : List Char → List Char → Bool
  | [], pat => pat.isEmpty
  | c :: rest, pat => charsBegin pat (c :: rest) || charsContain rest pat

/-- Python's `pat in s` substring test. -/
def strContains (s pat : String) : Bool := charsContain s.data pat.data

/-- Python's `str.lower()` (character-wise lowering). -/
def lowerStr (s : String) : String := String.mk (s.data.map Char.toLower)

inductive Family where
  | gemma
  | qwen25
  | qwen3
  | llama
  | other
deriving DecidableEq, Repr

/-- The `folder_name` dispatch of `start` (lines 271-296): the first of
`gemma`, `qwen25`, `qwen3`, `llama` contained case-insensitively in
`folder_name` wins. -/
def detectFamily (folderName : String) : Family :=
  let l := lowerStr folderName
  if strContains l "gemma" then .gemma
  else if strContains l "qwen25" then .qwen25
  else if strContains l "qwen3" then .qwen3
  else if strContains l "llama" then .llama
  else .other

/-- The command `start` builds for a model (lines 271-296).  `templateFor`
and `bpFor` stand for `_get_family_template_and_practice`: the template
path and parsed best-practice mapping for a family, `none` when the
resource file does not exist.  The gemma branch halves `context_length`
(integer division, line 274) and passes only the template; the qwen25 /
qwen3 / llama branches pass both; any other folder name passes neither. -/
def startBuildCommand (llamaServerPath folderName modelPath : String)
    (port : Nat) (host : String) (contextLength : Nat)
    (templateFor : Family → Option String)
    (bpFor : Family → Option (List (String × String))) : List String :=
  match detectFamily folderName with
  | .gemma =>
    buildAiCommand llamaServerPath modelPath port host (contextLength / 2)
      (templateFor .gemma) none
  | .qwen25 =>
    buildAiCommand llamaServerPath modelPath port host contextLength
      (templateFor .qwen25) (bpFor .qwen25)
  | .qwen3 =>
    buildAiCommand llamaServerPath modelPath port host contextLength
      (templateFor .qwen3) (bpFor .qwen3)
  | .llama =>
    buildAiCommand llamaServerPath modelPath port host contextLength
      (templateFor .llama) (bpFor .llama)
  | .other =>
    buildAiCommand llamaServerPath modelPath port host contextLength
      none none

/-! ## start (lines 175-385)

The outcomes of the external steps are the environment. The observable run
records the return value (or the exception that escaped), the record file
afterwards, and how many child processes were spawned (`subprocess.Popen`
calls). -/

structure StartEnv where
  lockAcquired : Bool
  portInUse : Bool
  downloadOk : Bool
  modelExists : Bool
  aiSpawnOk : Bool
  aiHealthOk : Bool
  apiSpawnOk : Bool
  apiHealthOk : Bool
  dumpOk : Bool
  postOk : Bool
  innerStopRemoves : Bool
deriving DecidableEq, Repr

/-- Every external step other than the record dump went well: the lock was
acquired, the requested port was free, the download produced the model, both
children spawned and passed their health probes, and the POST to `/update`
succeeded. -/
def StartEnv.allSucceed (env : StartEnv) : Prop :=
  env.lockAcquired = true ∧ env.portInUse = false ∧ env.downloadOk = true ∧
  env.modelExists = true ∧ env.aiSpawnOk = true ∧ env.aiHealthOk = true ∧
  env.apiSpawnOk = true ∧ env.apiHealthOk = true ∧ env.postOk = true

instance (env : StartEnv) : Decidable env.allSucceed := by
  unfold StartEnv.allSucceed; infer_instance

inductive StartResult where
  | ok (b : Bool)
  | errValueError
  | errAlreadyStarting
  | errStartError
deriving DecidableEq, Repr

structure StartRun where
  result : StartResult
  recordAfter : RecordFile
  spawns : Nat
deriving DecidableEq, Repr

/-- The tail of `start` after the running-model check (lines 225-381):
model-exists check, AI spawn, AI health, API spawn, API health, record
dump (`_dump_running_service` swallows every exception, so a failed dump
leaves the record file as it was and `start` continues), POST to
`/update` (a failure there calls `stop()` and returns `False`), then
return `True`. -/
def startTail (record : RecordFile) (hash : String) (env : StartEnv) : StartRun :=
  if !env.modelExists then ⟨.ok false, record, 0⟩
  else if !env.aiSpawnOk then ⟨.ok false, record, 0⟩
  else if !env.aiHealthOk then ⟨.ok false, record, 1⟩
  else if !env.apiSpawnOk then ⟨.ok false, record, 1⟩
  else if !env.apiHealthOk then ⟨.ok false, record, 2⟩
  else
    let recordDumped := if env.dumpOk then .readable hash else record
    if !env.postOk then
      ⟨.ok false, if env.innerStopRemoves then .absent else recordDumped, 2⟩
    else
      ⟨.ok true, recordDumped, 2⟩

/-- `start` (lines 175-385).  Empty hash raises `ValueError`; the start
lock failing raises out of the `with` (record untouched); a busy port
raises `ServiceStartError` before the inner `try`; a failed download makes
the inner body raise, caught at line 383 as `return False`.  Then
`get_running_model`: the same hash returns `True` immediately (line 221);
a different hash first runs `stop()` (line 223) and continues. -/
def start (record : RecordFile) (hash : String) (env : StartEnv) : StartRun :=
  if hash = "" then ⟨.errValueError, record, 0⟩
  else if !env.lockAcquired then ⟨.errAlreadyStarting, record, 0⟩
  else if env.portInUse then ⟨.errStartError, record, 0⟩
  else if !env.downloadOk then ⟨.ok false, record, 0⟩
  else
    match getRunningModel record with
    | some h =>
      if h = hash then ⟨.ok true, record, 0⟩
      else startTail (if env.innerStopRemoves then .absent else record) hash env
    | none => startTail record hash env

/-- `start` invoked while the service pair recorded in the supervision
record is running: the API child spawned by the earlier start listens on
`app_port` (uvicorn is launched with `--port app_port`), so the TCP probe at
lines 200-208 (`connect_ex((host, port))`, and connecting to the default
host `0.0.0.0` reaches the local listener) returns 0 and the pre-check sees
the port as bound — `portInUse` is forced to `true`, the remaining external
outcomes are taken from `env`. -/
def startWithPairRunning (record : RecordFile) (hash : String)
    (env : StartEnv) : StartRun :=
  start record hash
    ⟨env.lockAcquired, true, env.downloadOk, env.modelExists, env.aiSpawnOk,
     env.aiHealthOk, env.apiSpawnOk, env.apiHealthOk, env.dumpOk, env.postOk,
     env.innerStopRemoves⟩

end LocalAI

open CryptoModels LocalAI

/-! ## Theorems settling the claims -/

/-- Aggregator bookkeeping: one tracker operation changes
`pendingBytes + totalBytesDownloaded` by exactly the bytes passed in (an
`update`) or not at all (a `drain`). -/
theorem runTrackerOps_sum (ops : List TrackerOp) (st : TrackerState) :
    (runTrackerOps st ops).pendingBytes + (runTrackerOps st ops).totalBytesDownloaded
      = st.pendingBytes + st.totalBytesDownloaded + trackerOpsSum ops := by
  induction ops generalizing st with
  | nil => simp [runTrackerOps, trackerOpsSum]
  | cons o rest ih =>
    cases o with
    | update b =>
      have h := ih (updateProgressBatched st b)
      simp only [runTrackerOps, List.foldl_cons, applyTrackerOp, trackerOpsSum] at h ⊢
      rw [h]
      by_cases hbp : PROGRESS_BATCH_SIZE ≤ st.pendingBytes + b <;>
        simp [updateProgressBatched, hbp] <;> omega
    | drain =>
      have h := ih (periodicDrain st)
      simp only [runTrackerOps, List.foldl_cons, applyTrackerOp, trackerOpsSum] at h ⊢
      rw [h]
      by_cases hd0 : 0 < st.pendingBytes
      · simp [periodicDrain, hd0]
        omega
      · simp [periodicDrain, hd0]

/-- C8: for every sequence of `update_progress` / `update_progress_batched`
calls interleaved with periodic drains, starting from a fresh tracker,
`pending_bytes + total_bytes_downloaded` equals the sum of all byte-count
arguments passed so far: the two-tier accounting loses and double-counts
nothing. -/
theorem c8_tracker_invariant (ops : List TrackerOp) :
    (runTrackerOps ⟨0, 0⟩ ops).pendingBytes
      + (runTrackerOps ⟨0, 0⟩ ops).totalBytesDownloaded
      = trackerOpsSum ops := by
  have h := runTrackerOps_sum ops ⟨0, 0⟩
  simpa using h

/-- C1: with a two-blob manifest where one blob succeeds and the other fails
after its retries, `download_files_from_lighthouse_async` returns the
nonempty one-element list (not the empty list its docstring promises on
failure), so the orchestrator's `if not paths` check passes and
post-processing runs on a partial success; only when every blob fails is the
attempt failed and retried. -/
theorem c1_partial_success_post_processing :
    (downloadFilesFromLighthouse [true, false] 2).length ≠ 2 ∧
    downloadFilesFromLighthouse [true, false] 2 = [0] ∧
    attemptRunsPostProcessing [true, false] 2 = true ∧
    attemptRunsPostProcessing [false, false] 2 = false ∧
    attemptRunsPostProcessing [true, true] 2 = true := by
  decide

/-- C3: a blob whose 200-status body hashes wrong deletes the temp file,
but because the 200 branch never assigns `wait_time`, the retry path
interpolating `wait_time` raises `UnboundLocalError` with no backoff sleep
instead of sleeping `min(60 * 2^attempt, 300)` and eventually returning the
`(None, error)` failure tuple; only with a single allowed attempt does the
failure tuple come back. -/
theorem c3_mismatch_raises_unbound :
    downloadSingleFile none [.httpOk false, .httpOk false] MAX_ATTEMPTS =
      ⟨.raisedUnboundLocal, [], 1⟩ ∧
    downloadSingleFile none [.httpOk false] 1 =
      ⟨.failure "exhausted all attempts", [], 2⟩ := by
  decide

/-- C6: an attempt ending in HTTP 401, 403 or 404 with another attempt
remaining sleeps exactly the flat base interval `SLEEP_TIME = 60` before
the next attempt, while any other non-200 status at the same attempt index
would be assigned the exponential `min(60 * 2^attempt, 300)`. -/
theorem c6_flat_backoff (c attempts maxA : Nat) (rest : List AttemptOutcome)
    (w : Option Nat) (sleeps : List Nat) (td : Nat)
    (hc : flatRetryStatus c = true) (ha : attempts + 1 < maxA) :
    downloadGo maxA (.httpStatus c :: rest) attempts w sleeps td =
      downloadGo maxA rest (attempts + 1) (some SLEEP_TIME) (SLEEP_TIME :: sleeps) td ∧
    attemptWait (.httpStatus c) attempts = some 60 ∧
    (∀ c', flatRetryStatus c' = false →
      attemptWait (.httpStatus c') attempts = some (expBackoff attempts)) := by
  have h0 : attempts < maxA := Nat.lt_of_succ_lt ha
  refine ⟨?_, ?_, ?_⟩
  · simp [downloadGo, attemptWait, hc, h0, ha, tempDeletedBy]
  · simp [attemptWait, hc, SLEEP_TIME]
  · intro c' hc'
    simp [attemptWait, hc']

/-- Witness for C6 at status 404, attempt 0 of 2. -/
theorem c6_flat_backoff_witness :
    flatRetryStatus 404 = true ∧ 0 + 1 < 2 ∧
    (downloadGo 2 [.httpStatus 404, .httpOk true] 0 none [] 0 =
       downloadGo 2 [.httpOk true] 1 (some SLEEP_TIME) (SLEEP_TIME :: []) 0 ∧
     attemptWait (.httpStatus 404) 0 = some 60 ∧
     (∀ c', flatRetryStatus c' = false →
       attemptWait (.httpStatus c') 0 = some (expBackoff 0))) :=
  ⟨by decide, by decide,
   c6_flat_backoff 404 0 2 [.httpOk true] none [] 0 (by decide) (by decide)⟩

/-- C4: whatever the acquire phase and the body did — open failing, lock
acquired and the body returning or raising, a live conflicting holder, a
stale lock, or an unreadable lock file — after `_start_lock` exits the lock
file does not exist and every descriptor it opened is closed. -/
theorem c4_lock_file_removed (env : LockEnv) :
    (runStartLock env).lockFileAfter = false ∧ (runStartLock env).fdClosed = true := by
  cases env <;> simp [runStartLock, startLockFinally]

/-- C5: `stop` returns `False` without a record; with a record its result is
exactly `ai_stopped and api_stopped and pickle_removed` (the escalation
verdicts for the two PIDs and the record-file removal), and flipping the
port-freedom verification outcome never changes the result. -/
theorem c5_stop_result (r : RecordFile) (ai api pf pf' rm : Bool) :
    (stop .absent ai api pf rm).result = false ∧
    (stop r ai api pf rm).result = (recordLoadable r && ai && api && rm) ∧
    (stop r ai api pf rm).result = (stop r ai api pf' rm).result := by
  cases r <;> simp [stop, recordLoadable]

/-- C2 counterexample: a first `start` from no record with every external
step succeeding returns `True` and persists the record — leaving the API
child bound to `app_port` — and the immediately following identical
`start(H, app_port)` with the pair running hits the port pre-check at
lines 200-208 before the idempotency check at lines 219-221 and raises
`ServiceStartError` with nothing spawned, so it does not return success. -/
theorem c2_counterexample :
    (start .absent "QmA"
       ⟨true, false, true, true, true, true, true, true, true, true, true⟩).result
      = .ok true ∧
    (start .absent "QmA"
       ⟨true, false, true, true, true, true, true, true, true, true, true⟩).recordAfter
      = .readable "QmA" ∧
    (startWithPairRunning (.readable "QmA") "QmA"
       ⟨true, false, true, true, true, true, true, true, true, true, true⟩).result
      = .errStartError ∧
    (startWithPairRunning (.readable "QmA") "QmA"
       ⟨true, false, true, true, true, true, true, true, true, true, true⟩).result
      ≠ .ok true := by
  decide

/-- C2 (amended): with a supervision record for the same hash, `start`
returns success without spawning only when the port pre-check passes
(nothing is accepting connections on `app_port`, i.e. the recorded pair is
no longer listening); when the recorded pair is still running and bound to
`app_port`, the pre-check raises `ServiceStartError` before the idempotency
check is reached, spawning nothing and leaving the record untouched, so a
second identical start raises instead of returning success. -/
theorem c2_start_same_hash (hash : String) (env : StartEnv)
    (hh : hash ≠ "") (hg : env.allSucceed) :
    (start (.readable hash) hash env).result = .ok true ∧
    (start (.readable hash) hash env).spawns = 0 ∧
    (startWithPairRunning (.readable hash) hash env).result = .errStartError ∧
    (startWithPairRunning (.readable hash) hash env).spawns = 0 ∧
    (startWithPairRunning (.readable hash) hash env).recordAfter = .readable hash := by
  obtain ⟨hl, hp, hd, hm, hs1, hhe1, hs2, hhe2, hpost⟩ := hg
  simp [start, startTail, startWithPairRunning, getRunningModel, hh, hl, hp,
    hd, hm, hs1, hhe1, hs2, hhe2, hpost]

/-- Witness for the amended C2 with hash `QmA`: success with zero spawns
when the port is free, `ServiceStartError` when the recorded pair holds it. -/
theorem c2_start_same_hash_witness :
    ("QmA" : String) ≠ "" ∧
    StartEnv.allSucceed ⟨true, false, true, true, true, true, true, true, true, true, true⟩ ∧
    ((start (.readable "QmA") "QmA"
        ⟨true, false, true, true, true, true, true, true, true, true, true⟩).result = .ok true ∧
     (start (.readable "QmA") "QmA"
        ⟨true, false, true, true, true, true, true, true, true, true, true⟩).spawns = 0 ∧
     (startWithPairRunning (.readable "QmA") "QmA"
        ⟨true, false, true, true, true, true, true, true, true, true, true⟩).result
       = .errStartError ∧
     (startWithPairRunning (.readable "QmA") "QmA"
        ⟨true, false, true, true, true, true, true, true, true, true, true⟩).spawns = 0 ∧
     (startWithPairRunning (.readable "QmA") "QmA"
        ⟨true, false, true, true, true, true, true, true, true, true, true⟩).recordAfter
       = .readable "QmA") :=
  ⟨by decide, by decide,
   c2_start_same_hash "QmA" ⟨true, false, true, true, true, true, true, true, true, true, true⟩
     (by decide) (by decide)⟩

/-- C7: for a folder name containing `gemma` case-insensitively, when the
gemma chat template exists the spawned argv is exactly the base arguments
with the halved context length followed by the template flag: it contains
`-c` followed by `context_length // 2` and `--chat-template-file` with the
gemma template path, and no best-practice key/value pairs. -/
theorem c7_gemma_command (llamaPath folderName modelPath host tp : String)
    (port ctx : Nat) (templateFor : Family → Option String)
    (bpFor : Family → Option (List (String × String)))
    (hg : strContains (lowerStr folderName) "gemma" = true)
    (ht : templateFor .gemma = some tp) :
    startBuildCommand llamaPath folderName modelPath port host ctx templateFor bpFor =
      [llamaPath, "--model", modelPath, "--port", toString port, "--host", host,
       "-c", toString (ctx / 2), "-fa", "--pooling", "mean", "--no-webui",
       "-ngl", "9999", "--no-mmap", "--mlock", "--jinja",
       "--reasoning-format", "none", "--chat-template-file", tp] ∧
    List.IsInfix ["-c", toString (ctx / 2)]
      (startBuildCommand llamaPath folderName modelPath port host ctx templateFor bpFor) ∧
    List.IsInfix ["--chat-template-file", tp]
      (startBuildCommand llamaPath folderName modelPath port host ctx templateFor bpFor) := by
  have hcmd : startBuildCommand llamaPath folderName modelPath port host ctx templateFor bpFor =
      [llamaPath, "--model", modelPath, "--port", toString port, "--host", host,
       "-c", toString (ctx / 2), "-fa", "--pooling", "mean", "--no-webui",
       "-ngl", "9999", "--no-mmap", "--mlock", "--jinja",
       "--reasoning-format", "none", "--chat-template-file", tp] := by
    simp [startBuildCommand, detectFamily, hg, ht, buildAiCommand]
  refine ⟨hcmd, ?_, ?_⟩
  · rw [hcmd]
    exact ⟨[llamaPath, "--model", modelPath, "--port", toString port, "--host", host],
           ["-fa", "--pooling", "mean", "--no-webui", "-ngl", "9999", "--no-mmap",
            "--mlock", "--jinja", "--reasoning-format", "none",
            "--chat-template-file", tp], rfl⟩
  · rw [hcmd]
    exact ⟨[llamaPath, "--model", modelPath, "--port", toString port, "--host", host,
            "-c", toString (ctx / 2), "-fa", "--pooling", "mean", "--no-webui",
            "-ngl", "9999", "--no-mmap", "--mlock", "--jinja",
            "--reasoning-format", "none"], [], by simp⟩

/-- Witness for C7: folder `gemma-2b`, context length 32768, argv carries
`-c 16384`. -/
theorem c7_gemma_command_witness :
    strContains (lowerStr "gemma-2b") "gemma" = true ∧
    (fun _ : Family => some "gemma.jinja") Family.gemma = some "gemma.jinja" ∧
    (startBuildCommand "llama-server" "gemma-2b" "model.gguf" 8080 "0.0.0.0" 32768
        (fun _ : Family => some "gemma.jinja") (fun _ : Family => none) =
      ["llama-server", "--model", "model.gguf", "--port", toString 8080, "--host", "0.0.0.0",
       "-c", toString (32768 / 2), "-fa", "--pooling", "mean", "--no-webui",
       "-ngl", "9999", "--no-mmap", "--mlock", "--jinja",
       "--reasoning-format", "none", "--chat-template-file", "gemma.jinja"] ∧
     List.IsInfix ["-c", toString (32768 / 2)]
       (startBuildCommand "llama-server" "gemma-2b" "model.gguf" 8080 "0.0.0.0" 32768
         (fun _ : Family => some "gemma.jinja") (fun _ : Family => none)) ∧
     List.IsInfix ["--chat-template-file", "gemma.jinja"]
       (startBuildCommand "llama-server" "gemma-2b" "model.gguf" 8080 "0.0.0.0" 32768
         (fun _ : Family => some "gemma.jinja") (fun _ : Family => none))) ∧
    toString (32768 / 2 : Nat) = "16384" :=
  ⟨by decide, rfl,
   c7_gemma_command "llama-server" "gemma-2b" "model.gguf" "0.0.0.0" "gemma.jinja"
     8080 32768 (fun _ : Family => some "gemma.jinja") (fun _ : Family => none)
     (by decide) rfl,
   by decide⟩

/-- C9: when the pickle dump of the supervision record fails,
`_dump_running_service` swallows the exception and `start` ignores its
return value, so `start` still returns `True` while the record file was
never persisted and no cleanup is triggered. -/
theorem c9_dump_failure_ignored (hash : String) (env : StartEnv)
    (hh : hash ≠ "") (hg : env.allSucceed) (hdump : env.dumpOk = false) :
    (start .absent hash env).result = .ok true ∧
    (start .absent hash env).recordAfter = .absent := by
  obtain ⟨hl, hp, hd, hm, hs1, hhe1, hs2, hhe2, hpost⟩ := hg
  simp [start, startTail, getRunningModel, hh, hl, hp, hd, hm, hs1, hhe1, hs2,
    hhe2, hdump, hpost]

/-- Witness for C9 with hash `QmA` and only the record dump failing. -/
theorem c9_dump_failure_ignored_witness :
    ("QmA" : String) ≠ "" ∧
    StartEnv.allSucceed ⟨true, false, true, true, true, true, true, true, false, true, true⟩ ∧
    (⟨true, false, true, true, true, true, true, true, false, true, true⟩ : StartEnv).dumpOk = false ∧
    ((start .absent "QmA"
        ⟨true, false, true, true, true, true, true, true, false, true, true⟩).result = .ok true ∧
     (start .absent "QmA"
        ⟨true, false, true, true, true, true, true, true, false, true, true⟩).recordAfter = .absent) :=
  ⟨by decide, by decide, by decide,
   c9_dump_failure_ignored "QmA"
     ⟨true, false, true, true, true, true, true, true, false, true, true⟩
     (by decide) (by decide) (by decide)⟩

/-- C10: a record file that exists but cannot be deserialized makes `stop`
return `False` with zero termination escalations attempted and the record
file left in place, and a subsequent `stop` fails identically. -/
theorem c10_corrupt_record_stop (ai api pf rm ai' api' pf' rm' : Bool) :
    stop .corrupt ai api pf rm = ⟨false, .corrupt, 0⟩ ∧
    stop (stop .corrupt ai api pf rm).recordAfter ai' api' pf' rm' =
      ⟨false, .corrupt, 0⟩ := by
  simp [stop]
